import Mathlib

/-!
Shallow embedding of dlls/ntdll/sysdeps.c (system-dependent thread lifecycle
support): thread startup trampoline, spawn backends, stack switching,
graceful exit and abort sequencing, temporary stack pool, and the errno
virtualization layer.  Side-effecting C code is modelled as explicit event
traces or state-passing functions; preprocessor configuration is a record of
booleans; machine integers are Nat with explicit reduction mod 2^32 where
overflow matters.  A call that cannot return (pthread_exit, _lwp_exit, _exit,
a trap instruction) ends the trace of the function that reaches it, matching
the C control flow.
-/

namespace Sysdeps

/-- Build configuration: which host capabilities config.h defines.  Each flag
mirrors one preprocessor symbol tested in sysdeps.c. -/
structure BuildConfig where
  haveNPTL : Bool
  haveClone : Bool
  haveRfork : Bool
  haveLwpCreate : Bool
deriving DecidableEq, Repr

/-- The backend variant actually compiled in, following the preprocessor
chain of SYSDEPS_SpawnThread: NPTL, then clone, then rfork, then
lwp_create, then the FIXME stub. -/
inductive Backend where
  | nptl
  | cloneCall
  | rfork
  | lwpCreate
  | noBackend
deriving DecidableEq, Repr

/-- Which backend the preprocessor chain in SYSDEPS_SpawnThread selects. -/
def activeBackend (cfg : BuildConfig) : Backend :=
  if cfg.haveNPTL then .nptl
  else if cfg.haveClone then .cloneCall
  else if cfg.haveRfork then .rfork
  else if cfg.haveLwpCreate then .lwpCreate
  else .noBackend

/-- The four communication-channel handles closed during exit and abort,
in the order the source closes them. -/
inductive Handle where
  | waitFd0
  | waitFd1
  | replyFd
  | requestFd
deriving DecidableEq, Repr

/-- Thread environment block: the fields of TEB that sysdeps.c reads or
writes.  The id field stands for the identity of the block (its address). -/
structure TEB where
  id : Nat
  stack_base : Nat
  stack_top : Nat
  teb_sel : Nat
  pthread_data : Nat
deriving DecidableEq, Repr

/-- Observable actions of the sysdeps.c functions, one constructor per
distinct C call or field update on the lifecycle paths. -/
inductive Event where
  | setCurThread (teb : Nat)          -- SYSDEPS_SetCurThread(teb)
  | signalInit                        -- SIGNAL_Init()
  | clientInitThread                  -- CLIENT_InitThread()
  | callStartup (teb : Nat)           -- teb->startup()
  | exitThreadCall (status : Int)     -- call to SYSDEPS_ExitThread(status)
  | signalBlock                       -- SIGNAL_Block()
  | signalReset                       -- SIGNAL_Reset()
  | queryStackRegion                  -- NtQueryVirtualMemory on the stack
  | buildCleanupInfo (infoAddr : Nat) -- filling struct thread_cleanup_info
  | releaseStackRegion (base : Nat)   -- NtFreeVirtualMemory(... MEM_RELEASE ...)
  | closeHandle (h : Handle)          -- close(teb->...)
  | setTempStack (slot : Nat)         -- teb->stack_low/stack_top := temp stack
  | switchToStack (arg : Nat)         -- SYSDEPS_SwitchToThreadStack(f, arg)
  | copyInfoFrom (src : Nat)          -- info = *(struct thread_cleanup_info *)ptr
  | munmapRegion (base size : Nat)    -- munmap(base, size)
  | ldtFreeFs (sel : Nat)             -- wine_ldt_free_fs(sel)
  | pthreadJoin (handle : Nat)        -- pthread_join(handle, &ptr)
  | pthreadExit (status : Int)        -- pthread_exit((void *)status)
  | lwpExit                           -- _lwp_exit()
  | processExit (status : Int)        -- _exit(status)
deriving DecidableEq, Repr

/-- Does the event terminate the execution unit (a call that never returns)? -/
def Event.isTerminal : Event → Bool
  | .pthreadExit _ => true
  | .lwpExit => true
  | .processExit _ => true
  | _ => false

/-- Does the event release or unmap memory of a thread stack region? -/
def Event.freesStackMemory : Event → Bool
  | .releaseStackRegion _ => true
  | .munmapRegion _ _ => true
  | _ => false

/-- Does the event invoke the stack switcher? -/
def Event.isStackSwitch : Event → Bool
  | .switchToStack _ => true
  | _ => false

/-- Does the event mutate the thread control block (a TEB field write or the
closing of a handle stored in it)? -/
def Event.mutatesTEB : Event → Bool
  | .closeHandle _ => true
  | .setTempStack _ => true
  | .setCurThread _ => true
  | _ => false

/-- Does the event close a communication-channel handle? -/
def Event.isClose : Event → Bool
  | .closeHandle _ => true
  | _ => false

/-- TEMP_STACK_SIZE from sysdeps.c. -/
def TEMP_STACK_SIZE : Nat := 1024

/-- NB_TEMP_STACKS from sysdeps.c. -/
def NB_TEMP_STACKS : Nat := 8

/-- interlocked_xchg_add on a 32-bit cell: returns the old value and stores
old + incr, wrapping mod 2^32. -/
def interlocked_xchg_add (cell incr : Nat) : Nat × Nat :=
  (cell, (cell + incr) % 2 ^ 32)

/-- get_temp_stack from sysdeps.c: atomically fetch-and-add the shared
counter next_temp_stack, reduce the old value mod NB_TEMP_STACKS, and hand
out that temporary stack slot.  Returns (slot index, new counter value). -/
def get_temp_stack (next_temp_stack : Nat) : Nat × Nat :=
  let r := interlocked_xchg_add next_temp_stack 1
  (r.1 % NB_TEMP_STACKS, r.2)

/-- Value of the next_temp_stack counter after n calls to get_temp_stack
starting from its initial (zero-initialized static) value. -/
def tempStackCounterAfter : Nat → Nat
  | 0 => 0
  | n + 1 => (get_temp_stack (tempStackCounterAfter n)).2

/-- Slot handed out by the n-th call (counting from zero) to get_temp_stack. -/
def tempStackSlot (n : Nat) : Nat :=
  (get_temp_stack (tempStackCounterAfter n)).1

/-- Result of SYSDEPS_SpawnThread: the returned int, whether a new execution
unit was actually created, and how many backend creation attempts were made. -/
structure SpawnResult where
  ret : Int
  unitStarted : Bool
  attempts : Nat
deriving DecidableEq, Repr

/-- SYSDEPS_SpawnThread from sysdeps.c, per compiled backend.  createFails
abstracts the outcome of the single backend creation call.  The NPTL, clone
and lwp_create variants test that outcome and return -1 on failure; the
rfork variant issues the raw syscall without examining its result for
failure and falls through to return 0; with no backend the FIXME stub
returns -1 without any attempt. -/
def SYSDEPS_SpawnThread (cfg : BuildConfig) (createFails : Bool) : SpawnResult :=
  match activeBackend cfg with
  | .nptl => if createFails then ⟨-1, false, 1⟩ else ⟨0, true, 1⟩
  | .cloneCall => if createFails then ⟨-1, false, 1⟩ else ⟨0, true, 1⟩
  | .rfork => ⟨0, !createFails, 1⟩
  | .lwpCreate => if createFails then ⟨-1, false, 1⟩ else ⟨0, true, 1⟩
  | .noBackend => ⟨-1, false, 0⟩

/-- SYSDEPS_StartThread from sysdeps.c, the startup trampoline: register the
control block, initialize signal state, perform the client handshake, invoke
the entry function.  startupReturns abstracts whether teb->startup comes
back; if it does, the trampoline calls SYSDEPS_ExitThread(0). -/
def SYSDEPS_StartThread (teb : TEB) (startupReturns : Bool) : List Event :=
  [.setCurThread teb.id, .signalInit, .clientInitThread, .callStartup teb.id]
    ++ (if startupReturns then [.exitThreadCall 0] else [])

/-- SYSDEPS_AbortThread from sysdeps.c: block signals, close the four
channel handles, then terminate: pthread_exit under NPTL, otherwise reset
signals and use _lwp_exit where available, else loop on _exit.  The trace
stops at the first call that cannot return. -/
def SYSDEPS_AbortThread (cfg : BuildConfig) (status : Int) : List Event :=
  [.signalBlock,
   .closeHandle .waitFd0, .closeHandle .waitFd1,
   .closeHandle .replyFd, .closeHandle .requestFd]
    ++ (if cfg.haveNPTL then [.pthreadExit status]
        else [.signalReset]
          ++ (if cfg.haveLwpCreate then [.lwpExit] else [.processExit status]))

/-- cleanup_thread from sysdeps.c, run on a temporary stack: copy the
cleanup info out of the stack that is about to be unmapped, munmap that
stack, free the fs selector, then terminate (_lwp_exit where the LWP
backend exists, which never returns; otherwise _exit with the saved
status). -/
def cleanup_thread (cfg : BuildConfig) (infoAddr stackBase stackSize : Nat)
    (sel : Nat) (status : Int) : List Event :=
  [.copyInfoFrom infoAddr, .munmapRegion stackBase stackSize, .ldtFreeFs sel]
    ++ (if cfg.haveLwpCreate then [.lwpExit] else [.processExit status])

/-- The non-NPTL path of SYSDEPS_ExitThread from sysdeps.c: query the stack
region, build the cleanup info (a local variable at address infoAddr on the
current stack), block signals, release the stack region through
NtFreeVirtualMemory, close the four channel handles, reset signals, point
the TEB at a temporary stack slot, and switch onto it into cleanup_thread,
passing the address of the info local.  stackBase and stackSize are the
queried region bounds stored into the info structure. -/
def SYSDEPS_ExitThread_nonNptl (cfg : BuildConfig) (teb : TEB)
    (infoAddr stackBase stackSize slot : Nat) (status : Int) : List Event :=
  [.queryStackRegion, .buildCleanupInfo infoAddr, .signalBlock,
   .releaseStackRegion teb.stack_base,
   .closeHandle .waitFd0, .closeHandle .waitFd1,
   .closeHandle .replyFd, .closeHandle .requestFd,
   .signalReset, .setTempStack slot, .switchToStack infoAddr]
    ++ cleanup_thread cfg infoAddr stackBase stackSize teb.teb_sel status

/-- The NPTL path of SYSDEPS_ExitThread from sysdeps.c: atomically exchange
the own TEB into the static teb_to_free slot, receiving the previously
installed TEB; if one was there, join its pthread, free its fs selector and
release its stack; then block signals and abort the own thread.  Returns
the new slot contents together with the event trace of this exit. -/
def SYSDEPS_ExitThread_nptl (teb_to_free : Option TEB) (teb : TEB)
    (status : Int) : Option TEB × List Event :=
  let free_teb := teb_to_free
  let reclaim : List Event :=
    match free_teb with
    | some f => [.pthreadJoin f.pthread_data, .ldtFreeFs f.teb_sel,
                 .releaseStackRegion f.stack_base]
    | none => []
  (some teb,
   reclaim ++ [.signalBlock]
     ++ SYSDEPS_AbortThread ⟨true, false, false, false⟩ status)

/-- Sequential composition of NPTL exits: fold SYSDEPS_ExitThread_nptl over
a list of exiting threads, starting from a given teb_to_free slot.  Returns
the final slot and, per exit, the exiting TEB paired with the TEB it
received from the slot (the one it joined), in exit order. -/
def nptlExitFold : Option TEB → List TEB → Option TEB × List (TEB × Option TEB)
  | slot, [] => (slot, [])
  | slot, t :: rest =>
    let step := SYSDEPS_ExitThread_nptl slot t 0
    let tail := nptlExitFold step.1 rest
    (tail.1, (t, slot) :: tail.2)

/-- The TEBs reclaimed (joined and freed) over a sequence of NPTL exits
starting from an empty teb_to_free slot. -/
def reclaimedOf (l : List TEB) : List TEB :=
  ((nptlExitFold none l).2.map Prod.snd).reduceOption

/-- Matcher: a SYSDEPS_SetCurThread event with any argument. -/
def Event.isSetCurThread : Event → Bool
  | .setCurThread _ => true
  | _ => false

/-- Matcher: the SIGNAL_Init event. -/
def Event.isSignalInit : Event → Bool
  | .signalInit => true
  | _ => false

/-- Matcher: the CLIENT_InitThread event. -/
def Event.isClientInit : Event → Bool
  | .clientInitThread => true
  | _ => false

/-- Matcher: an invocation of the entry function. -/
def Event.isCallStartup : Event → Bool
  | .callStartup _ => true
  | _ => false

/-- Matcher: a call to SYSDEPS_ExitThread with any status. -/
def Event.isExitCall : Event → Bool
  | .exitThreadCall _ => true
  | _ => false

/-- Matcher: an _exit event (terminates the whole process). -/
def Event.isProcessExit : Event → Bool
  | .processExit _ => true
  | _ => false

/-- Does the event terminate only the calling execution unit, leaving the
rest of the process running (pthread_exit, _lwp_exit)? -/
def Event.terminatesOnlyThread : Event → Bool
  | .pthreadExit _ => true
  | .lwpExit => true
  | _ => false

/-- The address the event reads from memory, if any. -/
def Event.readAddr : Event → Option Nat
  | .copyInfoFrom a => some a
  | _ => none

/-- The cells backing errno and h_errno.  staticErrno and staticHErrno are
the function-local static variables of default_errno_location and
default_h_errno_location; threadErrno tid and threadHErrno tid are the
thread_errno and thread_h_errno fields of the TEB of thread tid. -/
inductive ErrnoCell where
  | staticErrno
  | staticHErrno
  | threadErrno (tid : Nat)
  | threadHErrno (tid : Nat)
deriving DecidableEq, Repr

/-- The two function values an errno indirection pointer can hold. -/
inductive ErrnoLocFn where
  | defaultLoc
  | threadLoc
deriving DecidableEq, Repr

/-- The mutable indirection state: the static function pointers
errno_location_ptr and h_errno_location_ptr of sysdeps.c. -/
structure ErrnoState where
  errno_location_ptr : ErrnoLocFn
  h_errno_location_ptr : ErrnoLocFn
deriving DecidableEq, Repr

/-- Static initialization of the two pointers in sysdeps.c: both point at
the default (process-wide static cell) accessors. -/
def initialErrnoState : ErrnoState := ⟨.defaultLoc, .defaultLoc⟩

/-- default_errno_location from sysdeps.c: address of the process-wide
static errno cell, independent of the calling thread. -/
def default_errno_location (_tid : Nat) : ErrnoCell := .staticErrno

/-- default_h_errno_location from sysdeps.c. -/
def default_h_errno_location (_tid : Nat) : ErrnoCell := .staticHErrno

/-- thread_errno_location from sysdeps.c: address of the thread_errno field
of the TEB of the calling thread, found through NtCurrentTeb. -/
def thread_errno_location (tid : Nat) : ErrnoCell := .threadErrno tid

/-- thread_h_errno_location from sysdeps.c. -/
def thread_h_errno_location (tid : Nat) : ErrnoCell := .threadHErrno tid

/-- Dereference an errno indirection pointer for the calling thread. -/
def callErrnoLoc : ErrnoLocFn → Nat → ErrnoCell
  | .defaultLoc, tid => default_errno_location tid
  | .threadLoc, tid => thread_errno_location tid

/-- Dereference an h_errno indirection pointer for the calling thread. -/
def callHErrnoLoc : ErrnoLocFn → Nat → ErrnoCell
  | .defaultLoc, tid => default_h_errno_location tid
  | .threadLoc, tid => thread_h_errno_location tid

/-- __errno_location from sysdeps.c (Linux): calls errno_location_ptr. -/
def __errno_location (s : ErrnoState) (tid : Nat) : ErrnoCell :=
  callErrnoLoc s.errno_location_ptr tid

/-- __error from sysdeps.c (FreeBSD alias). -/
def __error (s : ErrnoState) (tid : Nat) : ErrnoCell :=
  callErrnoLoc s.errno_location_ptr tid

/-- __errno from sysdeps.c (NetBSD alias). -/
def __errno (s : ErrnoState) (tid : Nat) : ErrnoCell :=
  callErrnoLoc s.errno_location_ptr tid

/-- ___errno from sysdeps.c (Solaris alias). -/
def ___errno (s : ErrnoState) (tid : Nat) : ErrnoCell :=
  callErrnoLoc s.errno_location_ptr tid

/-- __thr_errno from sysdeps.c (UnixWare alias). -/
def __thr_errno (s : ErrnoState) (tid : Nat) : ErrnoCell :=
  callErrnoLoc s.errno_location_ptr tid

/-- __h_errno_location from sysdeps.c. -/
def __h_errno_location (s : ErrnoState) (tid : Nat) : ErrnoCell :=
  callHErrnoLoc s.h_errno_location_ptr tid

/-- SYSDEPS_InitErrno from sysdeps.c: on non-NPTL builds repoint both
indirection pointers at the per-thread accessors; on NPTL builds the whole
body is compiled out and the state is untouched. -/
def SYSDEPS_InitErrno (cfg : BuildConfig) (s : ErrnoState) : ErrnoState :=
  if cfg.haveNPTL then s else ⟨.threadLoc, .threadLoc⟩

/-- Memory over errno cells, for stating visibility of writes. -/
def ErrnoMem : Type := ErrnoCell → Int

/-- Write value v to cell c. -/
def writeCell (m : ErrnoMem) (c : ErrnoCell) (v : Int) : ErrnoMem :=
  fun x => if x = c then v else m x

/-- Read cell c. -/
def readCell (m : ErrnoMem) (c : ErrnoCell) : Int := m c

/-- The compiled bodies of SYSDEPS_SwitchToThreadStack, one per
architecture branch of the preprocessor chain in sysdeps.c. -/
inductive SwitchImpl where
  | i386Gnu
  | i386Msc
  | sparcGnu
  | ppcDarwin
  | ppcLinux
  | genericFallback
deriving DecidableEq, Repr

/-- What a switcher body does at the point after the invoked function
returns, read off the last instruction of each branch in sysdeps.c. -/
inductive AfterFuncReturn where
  | trapBreakpoint
  | loopForever
  | returnToCaller
deriving DecidableEq, Repr

/-- Per implementation, what the body does at the point after the invoked
function returns.  The i386 GNU body places an int 3 breakpoint after
call, and the MSVC body an int 3 after its call, so a returning function
lands on the trap; the sparc body follows its call with a ta 0x01 trap.
The PowerPC bodies invoke the function with bctr, which does not set the
link register (that would be bctrl), so the trailing branch back into the
switcher (commented as a loop in the source) is unreachable: a returning
function would execute blr to the stale link register, transferring
control back to the caller of the switcher.  The generic C fallback falls
into while(1). -/
def switchAfterFuncReturn : SwitchImpl → AfterFuncReturn
  | .i386Gnu => .trapBreakpoint
  | .i386Msc => .trapBreakpoint
  | .sparcGnu => .trapBreakpoint
  | .ppcDarwin => .returnToCaller
  | .ppcLinux => .returnToCaller
  | .genericFallback => .loopForever

/-- Whether the body repoints the stack-pointer register at teb->stack_top
before calling the function.  The i386 GNU body loads teb->stack_top into
esp (movl fs:0x04 into esp) and the sparc body loads it into sp; the MSVC
i386 body and both PowerPC bodies move in the opposite direction — they
store the old stack pointer into teb->stack_top (mov fs:[0x04], esp and
stw 1, 0x4(13)) and never repoint the stack pointer; the generic fallback
leaves the stack pointer alone and calls the function on the current
stack. -/
def switchSetsStackPointer : SwitchImpl → Bool
  | .i386Gnu => true
  | .sparcGnu => true
  | _ => false

/-- Whether the body stores the old stack-pointer value into
teb->stack_top instead of loading the new stack from it (the MSVC i386
and PowerPC instruction operand order). -/
def switchStoresOldSPIntoTeb : SwitchImpl → Bool
  | .i386Msc => true
  | .ppcDarwin => true
  | .ppcLinux => true
  | _ => false

/-- Control state of the generic fallback body
{ func(arg); while(1); } of SYSDEPS_SwitchToThreadStack.  The
returnedToCaller state exists only to state its unreachability. -/
inductive FallbackState where
  | entry
  | funcRunning
  | spinLoop
  | returnedToCaller
deriving DecidableEq, Repr

/-- One control step of the generic fallback: enter, run func; if func
returns, fall into while(1), which steps to itself forever.  No step
produces returnedToCaller. -/
def fallbackStep : FallbackState → FallbackState
  | .entry => .funcRunning
  | .funcRunning => .spinLoop
  | .spinLoop => .spinLoop
  | .returnedToCaller => .returnedToCaller

/-- The address a lies inside the region of the given base and size. -/
def addrInRegion (a base size : Nat) : Prop :=
  base ≤ a ∧ a < base + size

instance (a base size : Nat) : Decidable (addrInRegion a base size) := by
  unfold addrInRegion; infer_instance

/-- The property claim C4 asserts of a trace: no stack-switch invocation in
it passes an argument referring into the given (old stack) region. -/
def switchArgAvoidsRegion (tr : List Event) (base size : Nat) : Prop :=
  ∀ a, Event.switchToStack a ∈ tr → ¬ addrInRegion a base size

/-! ## Theorems -/

/-- Claim C1: the startup trampoline SYSDEPS_StartThread performs, once each
and in this order, (1) SYSDEPS_SetCurThread on its control block,
(2) SIGNAL_Init, (3) CLIENT_InitThread, (4) the call of teb->startup; and if
the entry function returns, the trampoline calls SYSDEPS_ExitThread with
default status 0 instead of returning. -/
theorem startThread_trampoline_c1 (teb : TEB) (r : Bool) :
    ((SYSDEPS_StartThread teb r).countP Event.isSetCurThread = 1) ∧
    ((SYSDEPS_StartThread teb r).countP Event.isSignalInit = 1) ∧
    ((SYSDEPS_StartThread teb r).countP Event.isClientInit = 1) ∧
    ((SYSDEPS_StartThread teb r).countP Event.isCallStartup = 1) ∧
    ((SYSDEPS_StartThread teb r)[0]? = some (.setCurThread teb.id)) ∧
    ((SYSDEPS_StartThread teb r)[1]? = some .signalInit) ∧
    ((SYSDEPS_StartThread teb r)[2]? = some .clientInitThread) ∧
    ((SYSDEPS_StartThread teb r)[3]? = some (.callStartup teb.id)) ∧
    ((SYSDEPS_StartThread teb false).length = 4) ∧
    ((SYSDEPS_StartThread teb false).countP Event.isExitCall = 0) ∧
    ((SYSDEPS_StartThread teb true).getLast? = some (.exitThreadCall 0)) ∧
    ((SYSDEPS_StartThread teb true).countP Event.isExitCall = 1) := by
  cases r <;>
    exact ⟨rfl, rfl, rfl, rfl, rfl, rfl, rfl, rfl, rfl, rfl, rfl, rfl⟩

/-- The counter of the temporary stack pool holds n mod 2^32 after n calls. -/
theorem tempStackCounterAfter_eq (n : Nat) :
    tempStackCounterAfter n = n % 2 ^ 32 := by
  induction n with
  | zero => rfl
  | succ n ih =>
    show (get_temp_stack (tempStackCounterAfter n)).2 = (n + 1) % 2 ^ 32
    rw [ih]
    show (n % 2 ^ 32 + 1) % 2 ^ 32 = (n + 1) % 2 ^ 32
    rw [Nat.add_mod n 1]
    norm_num

/-- Claim C3: the n-th call (from zero) to get_temp_stack hands out slot
n mod NB_TEMP_STACKS, via fetch-and-add on the shared counter followed by
reduction mod NB_TEMP_STACKS; within any window of fewer than
NB_TEMP_STACKS consecutive calls the slots are pairwise distinct; and the
only state mutation of a call is the counter increment (wrapping mod 2^32)
— the pool keeps no free or in-use mark for any slot. -/
theorem get_temp_stack_round_robin_c3 :
    (∀ n, tempStackSlot n = n % NB_TEMP_STACKS) ∧
    (∀ i j, i < j → j < i + NB_TEMP_STACKS → tempStackSlot i ≠ tempStackSlot j) ∧
    (∀ c, (get_temp_stack c).2 = (c + 1) % 2 ^ 32) := by
  have hslot : ∀ n, tempStackSlot n = n % NB_TEMP_STACKS := by
    intro n
    show tempStackCounterAfter n % NB_TEMP_STACKS = n % NB_TEMP_STACKS
    rw [tempStackCounterAfter_eq]
    exact Nat.mod_mod_of_dvd n (by norm_num [NB_TEMP_STACKS])
  refine ⟨hslot, ?_, fun c => rfl⟩
  intro i j hij hwin
  rw [hslot i, hslot j]
  show i % NB_TEMP_STACKS ≠ j % NB_TEMP_STACKS
  unfold NB_TEMP_STACKS at hwin ⊢
  omega

/-- Witness for claim C3 at concrete inputs: calls 2 and 3 get distinct
slots. -/
theorem get_temp_stack_round_robin_c3_witness :
    tempStackSlot 2 ≠ tempStackSlot 3 :=
  get_temp_stack_round_robin_c3.2.1 2 3 (by decide) (by decide)

/-- Counterexample to claim C5: in the rfork build (no NPTL, no clone), a
failing creation syscall is not detected — SYSDEPS_SpawnThread still
returns 0, not -1, although no new execution unit runs. -/
theorem spawnThread_rfork_c5_counterexample :
    activeBackend ⟨false, false, true, false⟩ = .rfork ∧
    SYSDEPS_SpawnThread ⟨false, false, true, false⟩ true =
      { ret := 0, unitStarted := false, attempts := 1 } ∧
    ¬ (SYSDEPS_SpawnThread ⟨false, false, true, false⟩ true).ret = -1 := by
  decide

/-- Claim C5 as amended: SYSDEPS_SpawnThread returns a synchronous explicit
result with no internal retry (at most one backend creation attempt); it
returns 0 or -1; with no compiled backend it returns -1 without any
attempt; the NPTL, clone and lwp_create variants return -1 exactly when
the creation call fails and 0 otherwise; the rfork variant does not examine
the syscall result for failure and returns 0 regardless; whenever creation
failed, the new execution unit has run nothing. -/
theorem spawnThread_result_c5 (cfg : BuildConfig) (createFails : Bool) :
    ((SYSDEPS_SpawnThread cfg createFails).attempts ≤ 1) ∧
    ((SYSDEPS_SpawnThread cfg createFails).ret = 0 ∨
      (SYSDEPS_SpawnThread cfg createFails).ret = -1) ∧
    (activeBackend cfg = .noBackend →
      (SYSDEPS_SpawnThread cfg createFails).ret = -1 ∧
      (SYSDEPS_SpawnThread cfg createFails).attempts = 0) ∧
    (activeBackend cfg = .rfork →
      (SYSDEPS_SpawnThread cfg createFails).ret = 0) ∧
    (activeBackend cfg ≠ .rfork → activeBackend cfg ≠ .noBackend →
      (SYSDEPS_SpawnThread cfg createFails).ret =
        (if createFails then -1 else 0)) ∧
    ((SYSDEPS_SpawnThread cfg createFails).unitStarted = true →
      createFails = false) := by
  rcases cfg with ⟨n, c, rf, lw⟩
  cases n <;> cases c <;> cases rf <;> cases lw <;> cases createFails <;> decide

/-- Claim C9 states the documented contract of SYSDEPS_SwitchToThreadStack
(declared DECLSPEC_NORETURN, with never-return comments on every body),
but the PowerPC bodies break it: they invoke the function with bctr,
which does not set the link register, so should the invoked function
return, control would transfer through the stale link register back to
the caller of the switcher — and they, like the MSVC i386 body, store the
old stack pointer into teb->stack_top instead of loading the new stack
from it.  The remaining bodies honour the contract: the i386 and sparc
bodies trap after the call, and the generic fallback runs the function on
the current stack and falls into while(1), never reaching a
returned-to-caller state. -/
theorem switchToThreadStack_c9_code_bug :
    (switchAfterFuncReturn .ppcLinux = .returnToCaller) ∧
    (switchAfterFuncReturn .ppcDarwin = .returnToCaller) ∧
    (switchAfterFuncReturn .i386Gnu = .trapBreakpoint) ∧
    (switchAfterFuncReturn .i386Msc = .trapBreakpoint) ∧
    (switchAfterFuncReturn .sparcGnu = .trapBreakpoint) ∧
    (switchAfterFuncReturn .genericFallback = .loopForever) ∧
    (switchSetsStackPointer .i386Gnu = true) ∧
    (switchSetsStackPointer .sparcGnu = true) ∧
    (switchSetsStackPointer .i386Msc = false) ∧
    (switchSetsStackPointer .ppcDarwin = false) ∧
    (switchSetsStackPointer .ppcLinux = false) ∧
    (switchSetsStackPointer .genericFallback = false) ∧
    (switchStoresOldSPIntoTeb .i386Msc = true) ∧
    (switchStoresOldSPIntoTeb .ppcDarwin = true) ∧
    (switchStoresOldSPIntoTeb .ppcLinux = true) ∧
    (switchStoresOldSPIntoTeb .i386Gnu = false) ∧
    (∀ n, ¬ fallbackStep^[n] FallbackState.entry = .returnedToCaller) := by
  refine ⟨rfl, rfl, rfl, rfl, rfl, rfl, rfl, rfl, rfl, rfl, rfl, rfl, rfl,
    rfl, rfl, rfl, ?_⟩
  have h : ∀ n (s : FallbackState), s ≠ .returnedToCaller →
      fallbackStep^[n] s ≠ .returnedToCaller := by
    intro n
    induction n with
    | zero => intro s hs; simpa using hs
    | succ n ih =>
      intro s hs
      rw [Function.iterate_succ_apply]
      exact ih (fallbackStep s) (by cases s <;> first | decide | exact absurd rfl hs)
  exact fun n => h n .entry (by simp)

/-- Counterexample to claim C10: on an LWP build (HAVE__LWP_CREATE, a build
without NPTL), cleanup_thread ends in _lwp_exit, which terminates only the
calling thread, and never reaches _exit — terminating one thread does not
terminate the process there. -/
theorem cleanup_thread_lwp_c10_counterexample :
    (cleanup_thread ⟨false, false, false, true⟩ 8000 4096 8192 7 5).getLast?
        = some .lwpExit ∧
    Event.terminatesOnlyThread .lwpExit = true ∧
    (cleanup_thread ⟨false, false, false, true⟩ 8000 4096 8192 7 5).countP
        Event.isProcessExit = 0 := by
  decide

/-- Claim C10 as amended: on builds with neither NPTL nor the LWP backend,
cleanup_thread ends in _exit(info.status) after the munmap of the stack and
SYSDEPS_AbortThread ends looping on _exit(status); both terminate the whole
process with the thread status.  On LWP builds cleanup_thread instead ends
in _lwp_exit, terminating only the calling thread. -/
theorem cleanup_abort_process_exit_c10 (c rf : Bool)
    (infoAddr base size sel : Nat) (status : Int) :
    ((cleanup_thread ⟨false, c, rf, false⟩ infoAddr base size sel status).getLast?
        = some (.processExit status)) ∧
    ((cleanup_thread ⟨false, c, rf, false⟩ infoAddr base size sel status)[1]?
        = some (.munmapRegion base size)) ∧
    ((SYSDEPS_AbortThread ⟨false, c, rf, false⟩ status).getLast?
        = some (.processExit status)) ∧
    (Event.terminatesOnlyThread (.processExit status) = false) ∧
    ((cleanup_thread ⟨false, c, rf, true⟩ infoAddr base size sel status).getLast?
        = some .lwpExit) := by
  exact ⟨rfl, rfl, rfl, rfl, rfl⟩

/-- Claim C7: for every build and status, SYSDEPS_AbortThread never
releases or unmaps stack memory and never invokes the stack switcher; the
only control-block mutations in its trace are the closes of the four
communication-channel handles, which it performs in order, before it
terminates by the lightest available call — pthread_exit under NPTL, else
_lwp_exit where the LWP backend exists, else the abrupt _exit. -/
theorem abortThread_frame_c7 (cfg : BuildConfig) (status : Int) :
    ((SYSDEPS_AbortThread cfg status).countP Event.freesStackMemory = 0) ∧
    ((SYSDEPS_AbortThread cfg status).countP Event.isStackSwitch = 0) ∧
    ((SYSDEPS_AbortThread cfg status).countP
        (fun e => e.mutatesTEB && !e.isClose) = 0) ∧
    ((SYSDEPS_AbortThread cfg status)[1]? = some (.closeHandle .waitFd0)) ∧
    ((SYSDEPS_AbortThread cfg status)[2]? = some (.closeHandle .waitFd1)) ∧
    ((SYSDEPS_AbortThread cfg status)[3]? = some (.closeHandle .replyFd)) ∧
    ((SYSDEPS_AbortThread cfg status)[4]? = some (.closeHandle .requestFd)) ∧
    ((SYSDEPS_AbortThread cfg status).countP Event.isClose = 4) ∧
    (∃ e, (SYSDEPS_AbortThread cfg status).getLast? = some e ∧
      e.isTerminal = true) ∧
    ((SYSDEPS_AbortThread { cfg with haveNPTL := true } status).getLast?
        = some (.pthreadExit status)) ∧
    ((SYSDEPS_AbortThread { cfg with haveNPTL := false, haveLwpCreate := true }
        status).getLast? = some .lwpExit) ∧
    ((SYSDEPS_AbortThread { cfg with haveNPTL := false, haveLwpCreate := false }
        status).getLast? = some (.processExit status)) := by
  rcases cfg with ⟨n, c, rf, lw⟩
  cases n <;> cases lw <;>
    exact ⟨rfl, rfl, rfl, rfl, rfl, rfl, rfl, rfl, ⟨_, rfl, rfl⟩, rfl, rfl, rfl⟩

/-- Claim C8: on the non-NPTL path of SYSDEPS_ExitThread the steps occur in
this order: the cleanup info (region bounds and status) is built; the stack
region is released through NtFreeVirtualMemory, with the closing of the
four channel handles sequenced directly after it (not before it);
execution relocates onto a temporary stack slot through the stack switcher;
and on the temporary stack the freed region is unmapped, the fs selector
released, and the execution unit terminated — the trace ends in a call
that cannot return. -/
theorem exitThread_nonNptl_order_c8 (cfg : BuildConfig) (teb : TEB)
    (infoAddr stackBase stackSize slot : Nat) (status : Int) :
    ((SYSDEPS_ExitThread_nonNptl cfg teb infoAddr stackBase stackSize slot status)[1]?
        = some (.buildCleanupInfo infoAddr)) ∧
    ((SYSDEPS_ExitThread_nonNptl cfg teb infoAddr stackBase stackSize slot status)[3]?
        = some (.releaseStackRegion teb.stack_base)) ∧
    ((SYSDEPS_ExitThread_nonNptl cfg teb infoAddr stackBase stackSize slot status)[4]?
        = some (.closeHandle .waitFd0)) ∧
    ((SYSDEPS_ExitThread_nonNptl cfg teb infoAddr stackBase stackSize slot status)[5]?
        = some (.closeHandle .waitFd1)) ∧
    ((SYSDEPS_ExitThread_nonNptl cfg teb infoAddr stackBase stackSize slot status)[6]?
        = some (.closeHandle .replyFd)) ∧
    ((SYSDEPS_ExitThread_nonNptl cfg teb infoAddr stackBase stackSize slot status)[7]?
        = some (.closeHandle .requestFd)) ∧
    ((SYSDEPS_ExitThread_nonNptl cfg teb infoAddr stackBase stackSize slot status)[9]?
        = some (.setTempStack slot)) ∧
    ((SYSDEPS_ExitThread_nonNptl cfg teb infoAddr stackBase stackSize slot status)[10]?
        = some (.switchToStack infoAddr)) ∧
    ((SYSDEPS_ExitThread_nonNptl cfg teb infoAddr stackBase stackSize slot status)[11]?
        = some (.copyInfoFrom infoAddr)) ∧
    ((SYSDEPS_ExitThread_nonNptl cfg teb infoAddr stackBase stackSize slot status)[12]?
        = some (.munmapRegion stackBase stackSize)) ∧
    ((SYSDEPS_ExitThread_nonNptl cfg teb infoAddr stackBase stackSize slot status)[13]?
        = some (.ldtFreeFs teb.teb_sel)) ∧
    ((SYSDEPS_ExitThread_nonNptl cfg teb infoAddr stackBase stackSize slot status).countP
        Event.isClose = 4) ∧
    ((SYSDEPS_ExitThread_nonNptl cfg teb infoAddr stackBase stackSize slot status).length
        = 15) ∧
    (∃ e, (SYSDEPS_ExitThread_nonNptl cfg teb infoAddr stackBase stackSize slot
        status).getLast? = some e ∧ e.isTerminal = true) ∧
    ((SYSDEPS_ExitThread_nonNptl { cfg with haveLwpCreate := false } teb infoAddr
        stackBase stackSize slot status).getLast? = some (.processExit status)) ∧
    ((SYSDEPS_ExitThread_nonNptl { cfg with haveLwpCreate := true } teb infoAddr
        stackBase stackSize slot status).getLast? = some .lwpExit) := by
  rcases cfg with ⟨n, c, rf, lw⟩
  cases lw <;>
    exact ⟨rfl, rfl, rfl, rfl, rfl, rfl, rfl, rfl, rfl, rfl, rfl, rfl, rfl,
      ⟨_, rfl, rfl⟩, rfl, rfl⟩

/-- Counterexample to claim C4: the cleanup info is a local variable of
SYSDEPS_ExitThread and therefore lives inside the very stack region being
torn down; the stack switcher is invoked with its address, a reference into
the old stack, not a by-value argument.  Here the region is
[4096, 4096 + 8192) and the info local sits at 8000 inside it. -/
theorem exitThread_switch_arg_c4_counterexample :
    addrInRegion 8000 4096 8192 ∧
    ¬ switchArgAvoidsRegion
        (SYSDEPS_ExitThread_nonNptl ⟨false, false, false, false⟩
          ⟨1, 4096, 12288, 7, 0⟩ 8000 4096 8192 0 0) 4096 8192 := by
  refine ⟨by decide, fun h => ?_⟩
  exact absurd (by decide : addrInRegion 8000 4096 8192) (h 8000 (by decide))

/-- Claim C4 as amended: the stack switcher is passed a reference to the
cleanup info on the old stack, and safety is obtained by sequencing, not by
value passing: the target function copies the info out of the old stack as
its very first action, the old region is unmapped only after that copy, and
the one memory read in the whole exit trace is that copy — from the unmap
onward no event reads any address. -/
theorem exitThread_switch_copy_before_unmap_c4 (cfg : BuildConfig) (teb : TEB)
    (infoAddr stackBase stackSize slot : Nat) (status : Int) :
    ((SYSDEPS_ExitThread_nonNptl cfg teb infoAddr stackBase stackSize slot status)[10]?
        = some (.switchToStack infoAddr)) ∧
    ((SYSDEPS_ExitThread_nonNptl cfg teb infoAddr stackBase stackSize slot status)[11]?
        = some (.copyInfoFrom infoAddr)) ∧
    ((SYSDEPS_ExitThread_nonNptl cfg teb infoAddr stackBase stackSize slot status)[12]?
        = some (.munmapRegion stackBase stackSize)) ∧
    ((SYSDEPS_ExitThread_nonNptl cfg teb infoAddr stackBase stackSize slot status).countP
        (fun e => e.readAddr.isSome) = 1) ∧
    (((SYSDEPS_ExitThread_nonNptl cfg teb infoAddr stackBase stackSize slot
        status).drop 12).all (fun e => e.readAddr.isNone) = true) := by
  rcases cfg with ⟨n, c, rf, lw⟩
  cases lw <;> exact ⟨rfl, rfl, rfl, rfl, rfl⟩

/-- After a sequence of NPTL exits, the handoff slot holds the most recent
exiter, or its initial contents when nobody exited. -/
theorem nptlExitFold_slot (l : List TEB) (slot : Option TEB) :
    (nptlExitFold slot l).1 = l.getLast?.or slot := by
  induction l generalizing slot with
  | nil => rfl
  | cons t rest ih =>
    show (nptlExitFold (some t) rest).1 = (t :: rest).getLast?.or slot
    rw [ih]
    cases rest with
    | nil => rfl
    | cons r rs =>
      rw [List.getLast?_cons_cons]
      cases h : (r :: rs).getLast? with
      | none => exact absurd (List.getLast?_eq_none_iff.mp h) (by simp)
      | some x => rfl

/-- The sequence of slot values each exit receives: the initial slot first,
then each exiter but the last. -/
theorem nptlExitFold_joined (l : List TEB) (slot : Option TEB) (h : l ≠ []) :
    (nptlExitFold slot l).2.map Prod.snd = slot :: (l.dropLast.map some) := by
  induction l generalizing slot with
  | nil => exact absurd rfl h
  | cons t rest ih =>
    show slot :: (nptlExitFold (some t) rest).2.map Prod.snd
        = slot :: ((t :: rest).dropLast.map some)
    cases rest with
    | nil => rfl
    | cons r rs =>
      rw [ih (some t) (by simp), List.dropLast_cons₂]
      rfl

/-- reduceOption undoes a map with some. -/
theorem reduceOption_map_some_eq (xs : List TEB) :
    (xs.map some).reduceOption = xs := by
  induction xs with
  | nil => rfl
  | cons x rest ih =>
    show (some x :: rest.map some).reduceOption = x :: rest
    rw [List.reduceOption_cons_of_some, ih]

/-- Over a sequence of NPTL exits from an empty slot, the reclaimed threads
are exactly all exiters but the most recent one. -/
theorem reclaimedOf_eq_dropLast (l : List TEB) :
    reclaimedOf l = l.dropLast := by
  cases l with
  | nil => rfl
  | cons t rest =>
    show ((nptlExitFold none (t :: rest)).2.map Prod.snd).reduceOption
        = (t :: rest).dropLast
    rw [nptlExitFold_joined (t :: rest) none (by simp),
      List.reduceOption_cons_of_none, reduceOption_map_some_eq]

/-- Filtering a list of the form q ++ [a] down to the elements outside q
leaves at most one element. -/
theorem filter_not_mem_append_singleton (q : List TEB) (a : TEB) :
    ((q ++ [a]).filter (fun t => decide (t ∉ q))).length ≤ 1 := by
  rw [List.filter_append]
  have h1 : q.filter (fun t => decide (t ∉ q)) = [] :=
    List.filter_eq_nil_iff.mpr (fun x hx => by simp [hx])
  rw [h1]
  simpa using List.length_filter_le (fun t => decide (t ∉ q)) [a]

/-- At most one thread is exited but not reclaimed, whatever the exit
sequence: every exiter except the slot occupant has been reclaimed. -/
theorem exited_not_reclaimed_le_one (p : List TEB) :
    (p.filter (fun t => decide (t ∉ reclaimedOf p))).length ≤ 1 := by
  rw [reclaimedOf_eq_dropLast]
  cases hp : p with
  | nil => simp
  | cons t rest =>
    rw [← hp]
    have hne : p ≠ [] := by rw [hp]; simp
    have hsplit := List.dropLast_append_getLast hne
    calc (p.filter (fun t => decide (t ∉ p.dropLast))).length
        = ((p.dropLast ++ [p.getLast hne]).filter
            (fun t => decide (t ∉ p.dropLast))).length := by rw [hsplit]
      _ ≤ 1 := filter_not_mem_append_singleton p.dropLast (p.getLast hne)

/-- No exit ever receives its own TEB from the slot, provided the slot does
not already hold a TEB with the id of a thread still to exit and the
exiting ids are distinct. -/
theorem nptlExitFold_no_self_join (l : List TEB) (slot : Option TEB)
    (hslot : ∀ s, slot = some s → ¬ s.id ∈ l.map TEB.id)
    (hnd : (l.map TEB.id).Nodup) :
    ∀ p ∈ (nptlExitFold slot l).2, ∀ f, p.2 = some f → ¬ f.id = p.1.id := by
  induction l generalizing slot with
  | nil => intro p hp; exact absurd hp (by simp [nptlExitFold])
  | cons t rest ih =>
    intro p hp f hf
    have hp2 : p = (t, slot) ∨ p ∈ (nptlExitFold (some t) rest).2 :=
      List.mem_cons.mp hp
    rcases hp2 with h | h
    · subst h
      have : ¬ f.id ∈ (t :: rest).map TEB.id := hslot f hf
      simp only [List.map_cons, List.mem_cons] at this
      exact fun he => this (Or.inl he)
    · have hnd2 : ¬ t.id ∈ rest.map TEB.id ∧ (rest.map TEB.id).Nodup := by
        rw [List.map_cons] at hnd
        exact List.nodup_cons.mp hnd
      refine ih (some t) ?_ hnd2.2 p h f hf
      intro s hs
      have hst : t = s := Option.some.inj hs
      subst hst
      exact hnd2.1

/-- Concrete exit sequence used as the witness input for claim C2. -/
def c2ExitList : List TEB :=
  [⟨1, 100, 200, 11, 21⟩, ⟨2, 300, 400, 12, 22⟩, ⟨3, 500, 600, 13, 23⟩]

/-- Claim C2: in the NPTL build, every graceful exit installs its own TEB
into the teb_to_free slot by atomic exchange and receives the previously
installed TEB; when one was installed, it joins that TEB (its pthread
handle), frees its fs selector and releases its stack, in that order,
before its own teardown (the SIGNAL_Block that follows); over any sequence
of exits with distinct ids, at any instant at most one exited-but-not-
reclaimed TEB exists (the slot occupant), and no exit ever joins itself. -/
theorem nptl_handoff_c2 (l : List TEB) (hnd : (l.map TEB.id).Nodup) :
    (∀ prev teb status,
      (SYSDEPS_ExitThread_nptl prev teb status).1 = some teb) ∧
    (∀ f teb status,
      ((SYSDEPS_ExitThread_nptl (some f) teb status).2)[0]?
          = some (.pthreadJoin f.pthread_data) ∧
      ((SYSDEPS_ExitThread_nptl (some f) teb status).2)[1]?
          = some (.ldtFreeFs f.teb_sel) ∧
      ((SYSDEPS_ExitThread_nptl (some f) teb status).2)[2]?
          = some (.releaseStackRegion f.stack_base) ∧
      ((SYSDEPS_ExitThread_nptl (some f) teb status).2)[3]?
          = some .signalBlock) ∧
    (∀ teb status,
      ((SYSDEPS_ExitThread_nptl none teb status).2)[0]? = some .signalBlock) ∧
    ((nptlExitFold none l).1 = l.getLast?) ∧
    (∀ k, (((l.take k).filter
        (fun t => decide (t ∉ reclaimedOf (l.take k)))).length ≤ 1)) ∧
    (∀ p ∈ (nptlExitFold none l).2, ∀ f, p.2 = some f → ¬ f.id = p.1.id) := by
  refine ⟨fun prev teb status => rfl,
    fun f teb status => ⟨rfl, rfl, rfl, rfl⟩,
    fun teb status => rfl,
    ?_, fun k => exited_not_reclaimed_le_one (l.take k),
    nptlExitFold_no_self_join l none (by intro s hs; cases hs) hnd⟩
  rw [nptlExitFold_slot]
  cases l.getLast? <;> rfl

/-- Witness for claim C2 at a concrete three-thread exit sequence. -/
theorem nptl_handoff_c2_witness :
    ((c2ExitList.take 2).filter
        (fun t => decide (t ∉ reclaimedOf (c2ExitList.take 2)))).length ≤ 1 :=
  (nptl_handoff_c2 c2ExitList (by decide)).2.2.2.2.1 2

/-- Claim C6: on non-NPTL builds (the only ones that compile these
accessors), before SYSDEPS_InitErrno runs, __errno_location and its
aliases all resolve to the one process-wide static errno cell and
__h_errno_location to the one static h_errno cell, independently of the
calling thread, so a write from one thread is read by any other; after
SYSDEPS_InitErrno repoints the two indirection pointers, each accessor
resolves to the per-thread cell of the calling TEB, so cells of distinct
threads are distinct and a write from one thread is never visible when the
cell is read from another; under NPTL the initializer body is compiled out
and touches nothing. -/
theorem errno_virtualizer_c6 (c rf lw : Bool) (tidA tidB : Nat)
    (m : ErrnoMem) (v : Int) :
    (__errno_location initialErrnoState tidA = .staticErrno) ∧
    (__error initialErrnoState tidA = __errno_location initialErrnoState tidB) ∧
    (__errno initialErrnoState tidA = __errno_location initialErrnoState tidB) ∧
    (___errno initialErrnoState tidA = __errno_location initialErrnoState tidB) ∧
    (__thr_errno initialErrnoState tidA
        = __errno_location initialErrnoState tidB) ∧
    (__h_errno_location initialErrnoState tidA = .staticHErrno) ∧
    (readCell (writeCell m (__errno_location initialErrnoState tidA) v)
        (__errno_location initialErrnoState tidB) = v) ∧
    (readCell (writeCell m (__h_errno_location initialErrnoState tidA) v)
        (__h_errno_location initialErrnoState tidB) = v) ∧
    (__errno_location (SYSDEPS_InitErrno ⟨false, c, rf, lw⟩ initialErrnoState)
        tidA = .threadErrno tidA) ∧
    (__error (SYSDEPS_InitErrno ⟨false, c, rf, lw⟩ initialErrnoState)
        tidA = .threadErrno tidA) ∧
    (__errno (SYSDEPS_InitErrno ⟨false, c, rf, lw⟩ initialErrnoState)
        tidA = .threadErrno tidA) ∧
    (___errno (SYSDEPS_InitErrno ⟨false, c, rf, lw⟩ initialErrnoState)
        tidA = .threadErrno tidA) ∧
    (__thr_errno (SYSDEPS_InitErrno ⟨false, c, rf, lw⟩ initialErrnoState)
        tidA = .threadErrno tidA) ∧
    (__h_errno_location (SYSDEPS_InitErrno ⟨false, c, rf, lw⟩ initialErrnoState)
        tidA = .threadHErrno tidA) ∧
    (¬ tidA = tidB →
      __errno_location (SYSDEPS_InitErrno ⟨false, c, rf, lw⟩ initialErrnoState)
          tidA
        ≠ __errno_location (SYSDEPS_InitErrno ⟨false, c, rf, lw⟩
            initialErrnoState) tidB) ∧
    (¬ tidA = tidB →
      readCell
        (writeCell m
          (__errno_location (SYSDEPS_InitErrno ⟨false, c, rf, lw⟩
            initialErrnoState) tidA) v)
        (__errno_location (SYSDEPS_InitErrno ⟨false, c, rf, lw⟩
          initialErrnoState) tidB)
      = readCell m (__errno_location (SYSDEPS_InitErrno ⟨false, c, rf, lw⟩
          initialErrnoState) tidB)) ∧
    (¬ tidA = tidB →
      readCell
        (writeCell m
          (__h_errno_location (SYSDEPS_InitErrno ⟨false, c, rf, lw⟩
            initialErrnoState) tidA) v)
        (__h_errno_location (SYSDEPS_InitErrno ⟨false, c, rf, lw⟩
          initialErrnoState) tidB)
      = readCell m (__h_errno_location (SYSDEPS_InitErrno ⟨false, c, rf, lw⟩
          initialErrnoState) tidB)) ∧
    (∀ s, SYSDEPS_InitErrno ⟨true, c, rf, lw⟩ s = s) := by
  refine ⟨rfl, rfl, rfl, rfl, rfl, rfl, rfl, rfl, rfl, rfl, rfl, rfl, rfl, rfl,
    ?_, ?_, ?_, fun s => rfl⟩
  · intro h
    simpa [__errno_location, SYSDEPS_InitErrno, initialErrnoState, callErrnoLoc,
      thread_errno_location] using h
  · intro h
    show (if ErrnoCell.threadErrno tidB = ErrnoCell.threadErrno tidA
        then v else m (ErrnoCell.threadErrno tidB)) = m (ErrnoCell.threadErrno tidB)
    have : ¬ ErrnoCell.threadErrno tidB = ErrnoCell.threadErrno tidA := by
      simpa using fun he => h he.symm
    rw [if_neg this]
  · intro h
    show (if ErrnoCell.threadHErrno tidB = ErrnoCell.threadHErrno tidA
        then v else m (ErrnoCell.threadHErrno tidB)) = m (ErrnoCell.threadHErrno tidB)
    have : ¬ ErrnoCell.threadHErrno tidB = ErrnoCell.threadHErrno tidA := by
      simpa using fun he => h he.symm
    rw [if_neg this]

end Sysdeps
